import Mathlib

/-!
Verification of the nexus-cursor-plugin repository: the security-scanner
pipeline (data model, exit-code contract, severity bucketing, retry policy,
parser isolation, version normalization, idempotence), the GitService
read accessors, and the QueryHandler ranking pipeline.

Machine integers are modelled as Nat, CVSS scores as rationals, JS Date
values as Nat timestamps, fallible operations as Except/Option.
-/

/-- Severity levels, from src/tools/index.ts exports and the README type
`Severity = CRITICAL | HIGH | MEDIUM | LOW | UNKNOWN`. -/
inductive Severity where
  | CRITICAL
  | HIGH
  | MEDIUM
  | LOW
  | UNKNOWN
  deriving Repr, DecidableEq

/-- Package ecosystems, from the exported
`Ecosystem = npm | PyPI | Go | crates.io | Maven | Packagist | RubyGems | NuGet`. -/
inductive Ecosystem where
  | npm
  | PyPI
  | Go
  | cratesIo
  | Maven
  | Packagist
  | RubyGems
  | NuGet
  deriving Repr, DecidableEq

/-- A declared dependency, from the exported `Dependency` interface. -/
structure Dependency where
  name : String
  version : String
  ecosystem : Ecosystem
  filePath : String
  lineNumber : Option Nat
  deriving Repr, DecidableEq

/-- A matched vulnerability, from the exported `Vulnerability` interface;
the CVSS score is a rational, timestamps are strings as in the source. -/
structure Vulnerability where
  id : String
  summary : String
  details : Option String
  severity : Severity
  cvss : Option ℚ
  cveIds : List String
  affectedVersions : List String
  fixedVersions : List String
  references : List String
  publishedAt : Option String
  modifiedAt : Option String
  deriving Repr, DecidableEq

/-- One dependency paired with its matched vulnerabilities, from the exported
`VulnerabilityReport` interface. -/
structure VulnerabilityReport where
  dependency : Dependency
  vulnerabilities : List Vulnerability
  deriving Repr, DecidableEq

/-- The per-severity counters, the `Record<Severity, number>` of the source. -/
structure SeverityCounts where
  CRITICAL : Nat
  HIGH : Nat
  MEDIUM : Nat
  LOW : Nat
  UNKNOWN : Nat
  deriving Repr, DecidableEq

/-- The aggregate scan result, from the exported `ScanResult` interface;
`timestamp` (a JS Date) and `scanDuration` (milliseconds) are Nat. -/
structure ScanResult where
  timestamp : Nat
  projectPath : String
  totalDependencies : Nat
  vulnerableDependencies : Nat
  totalVulnerabilities : Nat
  severityCounts : SeverityCounts
  reports : List VulnerabilityReport
  scanDuration : Nat
  deriving Repr, DecidableEq

/-- The exit-code logic of `main` in examples/security-scan-example.ts
(success path): if totalVulnerabilities is positive then exit 2 on any
CRITICAL, else 1 on any HIGH, else 0; with no vulnerabilities exit 0. -/
def exitCode (r : ScanResult) : Nat :=
  if r.totalVulnerabilities > 0 then
    if r.severityCounts.CRITICAL > 0 then 2
    else if r.severityCounts.HIGH > 0 then 1
    else 0
  else 0

/-- The whole of `main` in examples/security-scan-example.ts as a function of
the outcome of `scanner.scan()`: a thrown error is caught and the process
exits with code 1; a returned ScanResult goes through the exit-code logic. -/
def mainExit (outcome : Except String ScanResult) : Nat :=
  match outcome with
  | Except.ok r => exitCode r
  | Except.error _ => 1

/-- Modelled from the spec: the severity derivation of §4.5 of the
correlator inside src/tools/security-scanner.ts, a file absent from the
source tree (only its exports, README and example caller are present).
Read the CVSS v3 base score if present and bucket first-match:
CRITICAL at 9.0 and above, HIGH at 7.0 and above, MEDIUM at 4.0 and
above, LOW above 0, else UNKNOWN; an absent score is UNKNOWN. -/
def severityFromCvss : Option ℚ → Severity
  | none => Severity.UNKNOWN
  | some s =>
    if s ≥ 9 then Severity.CRITICAL
    else if s ≥ 7 then Severity.HIGH
    else if s ≥ 4 then Severity.MEDIUM
    else if s > 0 then Severity.LOW
    else Severity.UNKNOWN

/-- Modelled from the spec: the version normalizer of §4.3 inside the
absent src/tools/security-scanner.ts. Strips the range operators
(a two-character operator before a one-character one), then any spaces
before the version core; a leading Go-style v tag marker is dropped. -/
def cleanVersionChars : List Char → List Char
  | '>' :: '=' :: rest => rest.dropWhile (fun c => c = ' ')
  | '<' :: '=' :: rest => rest.dropWhile (fun c => c = ' ')
  | '~' :: '>' :: rest => rest.dropWhile (fun c => c = ' ')
  | '^' :: rest => rest.dropWhile (fun c => c = ' ')
  | '~' :: rest => rest.dropWhile (fun c => c = ' ')
  | 'v' :: rest => rest
  | l => l

/-- Modelled from the spec: the string-level version normalizer (§4.3). -/
def normalizeVersion (s : String) : String := String.mk (cleanVersionChars s.data)

/-- Modelled from the spec: the retry policy of §4.4 inside the absent
src/tools/security-scanner.ts. The outcomes of the successive request
attempts for one dependency are an oracle from attempt index to an
optional advisory list; up to maxAttempts attempts are made in order and
the first success wins; exhaustion yields none. -/
def queryWithRetry (att : Nat → Option (List Vulnerability)) : Nat → Option (List Vulnerability)
  | 0 => none
  | n + 1 =>
    match queryWithRetry att n with
    | some vulns => some vulns
    | none => att n

/-- Modelled from the spec: the correlator of §4.5 inside the absent
src/tools/security-scanner.ts. A VulnerabilityReport is built for each
queried dependency whose matched vulnerability list is non-empty;
dependencies with zero matches are omitted entirely. -/
def buildReports (queryResults : List (Dependency × List Vulnerability)) : List VulnerabilityReport :=
  (queryResults.filter (fun p => ¬ p.2.isEmpty)).map
    (fun p => { dependency := p.1, vulnerabilities := p.2 })

/-- Modelled from the spec: the per-severity tally over all reported
vulnerabilities (§4.5 aggregation). -/
def countSeverity (reports : List VulnerabilityReport) (sev : Severity) : Nat :=
  (reports.map (fun rep => (rep.vulnerabilities.filter (fun v => v.severity = sev)).length)).sum

/-- Modelled from the spec: the severity-breakdown map of the ScanResult. -/
def severityCountsOf (reports : List VulnerabilityReport) : SeverityCounts :=
  { CRITICAL := countSeverity reports Severity.CRITICAL
    HIGH := countSeverity reports Severity.HIGH
    MEDIUM := countSeverity reports Severity.MEDIUM
    LOW := countSeverity reports Severity.LOW
    UNKNOWN := countSeverity reports Severity.UNKNOWN }

/-- Modelled from the spec: assembly of the final ScanResult (§4.5, §3)
inside the absent src/tools/security-scanner.ts, from the per-dependency
query results, stamping the timestamp and the measured duration. -/
def buildScanResult (ts : Nat) (projectPath : String)
    (queryResults : List (Dependency × List Vulnerability)) (duration : Nat) : ScanResult :=
  let reports := buildReports queryResults
  { timestamp := ts
    projectPath := projectPath
    totalDependencies := queryResults.length
    vulnerableDependencies := reports.length
    totalVulnerabilities := (reports.map (fun rep => rep.vulnerabilities.length)).sum
    severityCounts := severityCountsOf reports
    reports := reports
    scanDuration := duration }

/-- A discovered manifest file: its path and its textual content. -/
structure ManifestFile where
  path : String
  content : String
  deriving Repr, DecidableEq

/-- Modelled from the spec: parser dispatch with failure isolation
(§4.2, §7) inside the absent src/tools/security-scanner.ts. Each
manifest is parsed independently; a parse failure (none) skips that file
and the remaining manifests still contribute their dependencies. -/
def parseProject (parse : ManifestFile → Option (List Dependency))
    (files : List ManifestFile) : List Dependency :=
  (files.filterMap parse).flatten

/-- Modelled from the spec: the whole scan() pipeline of the absent
src/tools/security-scanner.ts — locate/parse the manifests, deduplicate
the dependencies, query each with up to 3 attempts, mark a dependency
whose retries are exhausted as having no vulnerability data, and
aggregate into a ScanResult. -/
def scanPipeline (parse : ManifestFile → Option (List Dependency))
    (oracle : Dependency → Nat → Option (List Vulnerability))
    (files : List ManifestFile) (ts : Nat) (projectPath : String) (duration : Nat) : ScanResult :=
  let deps := (parseProject parse files).dedup
  buildScanResult ts projectPath
    (deps.map (fun d => (d, (queryWithRetry (oracle d) 3).getD []))) duration

/-- A raw log entry as simple-git returns it to src/git/git-service.ts
(DefaultLogFields); the date is a Nat timestamp. -/
structure LogEntry where
  hash : String
  author_name : String
  author_email : String
  date : Nat
  message : String
  deriving Repr, DecidableEq

/-- The CommitInfo interface of src/git/git-service.ts. -/
structure CommitInfo where
  hash : String
  author : String
  email : String
  date : Nat
  message : String
  files : List String
  deriving Repr, DecidableEq

namespace GitService

/-- GitService.getFileHistory of src/git/git-service.ts: the outcome of the
underlying git.log call is passed as an Except value; on success every
entry is mapped to a CommitInfo with empty files, on failure the error is
caught, logged and the empty list returned. -/
def getFileHistory (logResult : Except Unit (List LogEntry)) : List CommitInfo :=
  match logResult with
  | Except.ok entries =>
      entries.map (fun e =>
        { hash := e.hash, author := e.author_name, email := e.author_email,
          date := e.date, message := e.message, files := [] })
  | Except.error _ => []

/-- GitService.getRecentCommits of src/git/git-service.ts: same mapping as
getFileHistory over git.log with only a maxCount option; failure is caught
and yields the empty list. -/
def getRecentCommits (logResult : Except Unit (List LogEntry)) : List CommitInfo :=
  match logResult with
  | Except.ok entries =>
      entries.map (fun e =>
        { hash := e.hash, author := e.author_name, email := e.author_email,
          date := e.date, message := e.message, files := [] })
  | Except.error _ => []

/-- GitService.getFileDiff of src/git/git-service.ts: returns the diff text
of git.diff, or the empty string when the call fails. -/
def getFileDiff (diffResult : Except Unit String) : String :=
  match diffResult with
  | Except.ok d => d
  | Except.error _ => ""

/-- GitService.raw of src/git/git-service.ts: returns the output of
git.raw, or the empty string when the call fails. -/
def raw (rawResult : Except Unit String) : String :=
  match rawResult with
  | Except.ok out => out
  | Except.error _ => ""

/-- GitService.getCommitDetails of src/git/git-service.ts: git.log for the
hash (null when it has no entry), then git.diff --name-only whose lines are
split on newline and filtered non-empty; the try block covers both git
calls, so any failure is caught and yields null. -/
def getCommitDetails (logResult : Except Unit (List LogEntry))
    (diffResult : Except Unit String) : Option CommitInfo :=
  match logResult with
  | Except.error _ => none
  | Except.ok entries =>
    match entries with
    | [] => none
    | e :: _ =>
      match diffResult with
      | Except.error _ => none
      | Except.ok diff =>
          some { hash := e.hash, author := e.author_name, email := e.author_email,
                 date := e.date, message := e.message,
                 files := (diff.splitOn "\n").filter (fun s => ¬ s.isEmpty) }

end GitService

/-- The structured metadata of a query result item
(src/handlers/query-handler.ts, QueryResultItem.metadata). -/
structure ItemMetadata where
  language : Option String
  type : Option String
  symbols : List String
  tags : List String
  deriving Repr, DecidableEq

/-- The QueryResultItem interface of src/handlers/query-handler.ts;
confidence and relevance are JS numbers, modelled as rationals. -/
structure QueryResultItem where
  id : String
  filePath : String
  lineNumber : Option Nat
  endLine : Option Nat
  code : Option String
  context : String
  confidence : ℚ
  relevance : ℚ
  metadata : ItemMetadata
  deriving Repr, DecidableEq

/-- The QueryOptions interface of src/handlers/query-handler.ts. -/
structure QueryOptions where
  limit : Option Nat
  language : Option String
  fileType : Option String
  directory : Option String
  includeSnippets : Option Bool
  deriving Repr, DecidableEq

/-- The QueryResponse interface of src/handlers/query-handler.ts. -/
structure QueryResponse where
  query : String
  summary : String
  results : List QueryResultItem
  totalResults : Nat
  maxConfidence : ℚ
  executionTime : Nat
  deriving Repr, DecidableEq

namespace QueryHandler

/-- QueryHandler.getFileExtension of src/handlers/query-handler.ts: the
lowercased text after the last dot, or the empty string when there is no
dot or the dot is the final character. -/
def getFileExtension (filePath : String) : String :=
  if filePath.data.contains '.' then
    (String.mk (filePath.data.reverse.takeWhile (fun c => c ≠ '.')).reverse).toLower
  else ""

/-- Substring containment, the semantics of JS String.prototype.includes
used by the directory filter. -/
def strContains (s sub : String) : Bool := decide (sub.data <:+: s.data)

/-- The directory normalisation of QueryHandler.applyFilters: the regex
replace that removes one leading and one trailing slash. -/
def trimSlashes (s : String) : String :=
  let l := if s.data.head? = some '/' then s.data.tail else s.data
  String.mk (if l.getLast? = some '/' then l.dropLast else l)

/-- QueryHandler.applyFilters of src/handlers/query-handler.ts: filter by
language (metadata language, file suffix or extension), then by file type
(extension with a dot prepended when missing), then by directory
(substring match after trimming slashes); an absent option skips its
filter. -/
def applyFilters (results : List QueryResultItem) (options : QueryOptions) :
    List QueryResultItem :=
  let f1 := match options.language with
    | none => results
    | some lang =>
      let targetLang := lang.toLower
      results.filter (fun r =>
        (match r.metadata.language with
         | some l => l.toLower = targetLang
         | none => false)
        || r.filePath.endsWith ("." ++ targetLang)
        || getFileExtension r.filePath = targetLang)
  let f2 := match options.fileType with
    | none => f1
    | some ft =>
      let targetExt := if ft.startsWith "." then ft else "." ++ ft
      f1.filter (fun r => r.filePath.endsWith targetExt)
  match options.directory with
  | none => f2
  | some dir => f2.filter (fun r => strContains r.filePath (trimSlashes dir))

/-- The comparator of the ranking step: the JS sort comparator
(a, b) => b.confidence - a.confidence, i.e. descending confidence. -/
def confDesc (a b : QueryResultItem) : Bool := decide (b.confidence ≤ a.confidence)

/-- The maxConfidence statistic of QueryHandler.query: Math.max over the
ranked confidences when non-empty, else 0. -/
def maxConfidenceOf (l : List QueryResultItem) : ℚ :=
  ((l.map (fun r => r.confidence)).max?).getD 0

/-- The success path of QueryHandler.query of src/handlers/query-handler.ts
as a function of the formatted results (the output of formatResults over
the GraphRAG sources) and the summary text: apply the option defaults
(limit 20), filter, sort by descending confidence, truncate to the limit,
and report totalResults as the filtered count. -/
def query (question : String) (options : QueryOptions) (summary : String)
    (formatted : List QueryResultItem) (executionTime : Nat) : QueryResponse :=
  let limit := options.limit.getD 20
  let filteredResults := applyFilters formatted options
  let rankedResults := (filteredResults.mergeSort confDesc).take limit
  { query := question
    summary := summary
    results := rankedResults
    totalResults := filteredResults.length
    maxConfidence := maxConfidenceOf rankedResults
    executionTime := executionTime }

end QueryHandler

/-- A concrete npm dependency used as a test vector. -/
def exDep : Dependency :=
  { name := "lodash", version := "4.17.0", ecosystem := Ecosystem.npm,
    filePath := "package.json", lineNumber := none }

/-- A concrete MEDIUM-severity vulnerability used as a test vector. -/
def exVulnMedium : Vulnerability :=
  { id := "GHSA-aaaa-bbbb-cccc", summary := "a medium severity issue",
    details := none, severity := Severity.MEDIUM, cvss := some 5,
    cveIds := [], affectedVersions := [], fixedVersions := [],
    references := [], publishedAt := none, modifiedAt := none }

/-- A concrete HIGH-severity vulnerability used as a test vector. -/
def exVulnHigh : Vulnerability :=
  { id := "GHSA-dddd-eeee-ffff", summary := "a high severity issue",
    details := none, severity := Severity.HIGH, cvss := some (15/2),
    cveIds := [], affectedVersions := [], fixedVersions := [],
    references := [], publishedAt := none, modifiedAt := none }

/-- A scan result whose single vulnerability is MEDIUM. -/
def exMediumResult : ScanResult :=
  buildScanResult 0 "/proj" [(exDep, [exVulnMedium])] 10

/-- A scan result whose single vulnerability is HIGH. -/
def exHighResult : ScanResult :=
  buildScanResult 0 "/proj" [(exDep, [exVulnHigh])] 10

/-- A well-formed manifest file used as a test vector. -/
def exFileGood : ManifestFile :=
  { path := "requirements.txt", content := "requests==1.0.0" }

/-- A malformed (truncated JSON) manifest file used as a test vector. -/
def exFileBad : ManifestFile :=
  { path := "package.json", content := "\x7b\"dependencies\": \x7b" }

/-- A concrete parse oracle for the witnesses: the well-formed manifest
yields one dependency, anything else fails to parse. -/
def exParse : ManifestFile → Option (List Dependency) :=
  fun f => if f.content = "requests==1.0.0" then some [exDep] else none

/-- C1 counterexample: a ScanResult with one MEDIUM vulnerability (and no
CRITICAL or HIGH) makes the standalone entry point exit with code 0 even
though the scan found a vulnerability, so exit code 0 does not hold exactly
when no vulnerabilities were found. -/
theorem exitCode_zero_despite_vulnerabilities :
    exitCode exMediumResult = 0 ∧ exMediumResult.totalVulnerabilities ≠ 0 := by
  decide

/-- C1 (amended): the standalone exit code is 2 exactly when vulnerabilities
were found and some is CRITICAL, 1 exactly when vulnerabilities were found
with no CRITICAL but some HIGH, and 0 exactly when either no vulnerability
was found or none of them is CRITICAL or HIGH. -/
theorem exitCode_contract (r : ScanResult) :
    (exitCode r = 0 ↔
      (r.totalVulnerabilities = 0 ∨
        (r.severityCounts.CRITICAL = 0 ∧ r.severityCounts.HIGH = 0))) ∧
    (exitCode r = 2 ↔
      (0 < r.totalVulnerabilities ∧ 0 < r.severityCounts.CRITICAL)) ∧
    (exitCode r = 1 ↔
      (0 < r.totalVulnerabilities ∧ r.severityCounts.CRITICAL = 0 ∧
        0 < r.severityCounts.HIGH)) := by
  unfold exitCode
  rcases Nat.eq_zero_or_pos r.totalVulnerabilities with h | h <;>
    rcases Nat.eq_zero_or_pos r.severityCounts.CRITICAL with hc | hc <;>
      rcases Nat.eq_zero_or_pos r.severityCounts.HIGH with hh | hh <;>
        simp [h, hc, hh] <;> omega

/-- C8: in the standalone entry point a thrown error from scan() is caught
and exits with code 1, the very code a successful scan with HIGH (and no
CRITICAL) vulnerabilities exits with, so the two outcomes are
indistinguishable by exit code. -/
theorem mainExit_error_collides_with_high (e : String) (r : ScanResult)
    (h1 : 0 < r.totalVulnerabilities) (h2 : r.severityCounts.CRITICAL = 0)
    (h3 : 0 < r.severityCounts.HIGH) :
    mainExit (Except.error e) = 1 ∧
    mainExit (Except.ok r) = mainExit (Except.error e) := by
  refine ⟨rfl, ?_⟩
  show exitCode r = 1
  unfold exitCode
  rw [if_pos h1, if_neg (by omega), if_pos h3]

/-- C8 witness: the collision at a concrete HIGH-only scan result and a
concrete error. -/
theorem mainExit_error_collides_with_high_witness :
    mainExit (Except.error "scan failed") = 1 ∧
    mainExit (Except.ok exHighResult) = mainExit (Except.error "scan failed") :=
  mainExit_error_collides_with_high "scan failed" exHighResult
    (by decide) (by decide) (by decide)

/-- C9: every GitService read accessor swallows the underlying git failure
and returns its neutral fallback instead of rethrowing: the history
accessors return the empty list, the diff and raw accessors return the
empty string, and getCommitDetails returns none when the log call fails,
when the commit is absent from the log, or when the diff call fails; as
total functions none of them can throw. -/
theorem gitService_error_fallbacks :
    GitService.getFileHistory (Except.error ()) = [] ∧
    GitService.getRecentCommits (Except.error ()) = [] ∧
    GitService.getFileDiff (Except.error ()) = "" ∧
    GitService.raw (Except.error ()) = "" ∧
    (∀ dr, GitService.getCommitDetails (Except.error ()) dr = none) ∧
    (∀ dr, GitService.getCommitDetails (Except.ok []) dr = none) ∧
    (∀ lr, GitService.getCommitDetails lr (Except.error ()) = none) := by
  refine ⟨rfl, rfl, rfl, rfl, fun dr => rfl, fun dr => rfl, fun lr => ?_⟩
  rcases lr with _ | entries
  · rfl
  · cases entries <;> rfl

/-- C2: for every assembled ScanResult, vulnerableDependencies equals the
number of reports, and every report carries a non-empty vulnerability list
(a dependency with zero matches contributes no report at all). -/
theorem scanResult_reports_invariant (ts : Nat) (pp : String)
    (qrs : List (Dependency × List Vulnerability)) (dur : Nat) :
    (buildScanResult ts pp qrs dur).vulnerableDependencies
      = (buildScanResult ts pp qrs dur).reports.length ∧
    ∀ rep ∈ (buildScanResult ts pp qrs dur).reports, rep.vulnerabilities ≠ [] := by
  refine ⟨rfl, ?_⟩
  intro rep hrep
  simp only [buildScanResult, buildReports, List.mem_map, List.mem_filter] at hrep
  obtain ⟨p, ⟨hp, hne⟩, rfl⟩ := hrep
  simpa [List.isEmpty_iff] using hne

/-- C2 witness: the invariant at a concrete query-result list with one
vulnerable and one clean dependency. -/
theorem scanResult_reports_invariant_witness :
    (buildScanResult 0 "/proj" [(exDep, [exVulnMedium]), (exDep, [])] 10).vulnerableDependencies
      = (buildScanResult 0 "/proj" [(exDep, [exVulnMedium]), (exDep, [])] 10).reports.length ∧
    ({ dependency := exDep, vulnerabilities := [exVulnMedium] } : VulnerabilityReport).vulnerabilities ≠ [] :=
  ⟨(scanResult_reports_invariant 0 "/proj" [(exDep, [exVulnMedium]), (exDep, [])] 10).1,
   (scanResult_reports_invariant 0 "/proj" [(exDep, [exVulnMedium]), (exDep, [])] 10).2
     { dependency := exDep, vulnerabilities := [exVulnMedium] } (by decide)⟩

/-- C3: severity derivation is a total function of the optional CVSS v3
base score: UNKNOWN when absent, CRITICAL from 9.0, HIGH from 7.0, MEDIUM
from 4.0, LOW above 0; in particular 9.8, 7.0, 4.0, 0.1 land in CRITICAL,
HIGH, MEDIUM, LOW. -/
theorem severity_bucketing (q : ℚ) :
    severityFromCvss none = Severity.UNKNOWN ∧
    (9 ≤ q → severityFromCvss (some q) = Severity.CRITICAL) ∧
    (7 ≤ q → q < 9 → severityFromCvss (some q) = Severity.HIGH) ∧
    (4 ≤ q → q < 7 → severityFromCvss (some q) = Severity.MEDIUM) ∧
    (0 < q → q < 4 → severityFromCvss (some q) = Severity.LOW) := by
  refine ⟨rfl, ?_, ?_, ?_, ?_⟩ <;> intros <;> simp only [severityFromCvss] <;>
    split_ifs <;> first | rfl | linarith

/-- C3 witness: the bucketing evaluated at the concrete scores 9.8, 7.0,
4.0 and 0.1 of the spec. -/
theorem severity_bucketing_witness :
    severityFromCvss (some (98/10)) = Severity.CRITICAL ∧
    severityFromCvss (some 7) = Severity.HIGH ∧
    severityFromCvss (some 4) = Severity.MEDIUM ∧
    severityFromCvss (some (1/10)) = Severity.LOW ∧
    severityFromCvss none = Severity.UNKNOWN :=
  ⟨(severity_bucketing (98/10)).2.1 (by norm_num),
   (severity_bucketing 7).2.2.1 (by norm_num) (by norm_num),
   (severity_bucketing 4).2.2.2.1 (by norm_num) (by norm_num),
   (severity_bucketing (1/10)).2.2.2.2 (by norm_num) (by norm_num),
   (severity_bucketing 0).1⟩

/-- When every attempt of the per-dependency query fails, the retry loop
exhausts and reports no data. -/
theorem queryWithRetry_exhausted (att : Nat → Option (List Vulnerability))
    (h : ∀ n, att n = none) : ∀ k, queryWithRetry att k = none := by
  intro k
  induction k with
  | zero => rfl
  | succ n ih => simp [queryWithRetry, ih, h n]

/-- C4: a dependency whose query fails on every retry attempt is recorded
as having zero vulnerabilities — it appears in no report — while the scan
still returns a complete ScanResult counting every deduplicated parsed
dependency; when every request fails (the all-500 scenario) the result has
no vulnerabilities at all instead of an exception or a partial result. -/
theorem scan_retry_exhaustion (parse : ManifestFile → Option (List Dependency))
    (oracle : Dependency → Nat → Option (List Vulnerability))
    (files : List ManifestFile) (ts : Nat) (pp : String) (dur : Nat)
    (d : Dependency) (hd : ∀ n, oracle d n = none) :
    (∀ rep ∈ (scanPipeline parse oracle files ts pp dur).reports,
      rep.dependency ≠ d) ∧
    (scanPipeline parse oracle files ts pp dur).totalDependencies
      = (parseProject parse files).dedup.length ∧
    ((∀ d2 n, oracle d2 n = none) →
      (scanPipeline parse oracle files ts pp dur).totalVulnerabilities = 0 ∧
      (scanPipeline parse oracle files ts pp dur).reports = []) := by
  have hzero : (queryWithRetry (oracle d) 3).getD [] = [] := by
    rw [queryWithRetry_exhausted _ hd]
    rfl
  refine ⟨?_, ?_, ?_⟩
  · intro rep hrep
    simp only [scanPipeline, buildScanResult, buildReports, List.mem_map,
      List.mem_filter] at hrep
    obtain ⟨p, ⟨hp, hne⟩, rfl⟩ := hrep
    obtain ⟨d2, hd2, rfl⟩ := hp
    intro hcontra
    have hd2d : d2 = d := hcontra
    subst hd2d
    rw [hzero] at hne
    simp at hne
  · simp [scanPipeline, buildScanResult]
  · intro hall
    have hfilter : ((parseProject parse files).dedup.map
        (fun d2 => (d2, (queryWithRetry (oracle d2) 3).getD []))).filter
          (fun p => ¬ p.2.isEmpty) = [] := by
      apply List.filter_eq_nil_iff.mpr
      intro a ha
      obtain ⟨d2, _, rfl⟩ := List.mem_map.mp ha
      rw [queryWithRetry_exhausted _ (hall d2)]
      simp
    refine ⟨?_, ?_⟩ <;> simp only [scanPipeline, buildScanResult, buildReports, hfilter] <;> rfl

/-- C4 witness: the exhaustion behaviour at a concrete one-file project and
an oracle that fails every attempt. -/
theorem scan_retry_exhaustion_witness :
    (scanPipeline exParse (fun _ _ => none) [exFileGood] 0 "/proj" 10).totalDependencies
      = (parseProject exParse [exFileGood]).dedup.length ∧
    (scanPipeline exParse (fun _ _ => none) [exFileGood] 0 "/proj" 10).totalVulnerabilities = 0 ∧
    (scanPipeline exParse (fun _ _ => none) [exFileGood] 0 "/proj" 10).reports = [] := by
  have h := scan_retry_exhaustion exParse (fun _ _ => none) [exFileGood] 0 "/proj" 10
    exDep (fun n => rfl)
  exact ⟨h.2.1, (h.2.2 (fun d2 n => rfl)).1, (h.2.2 (fun d2 n => rfl)).2⟩

/-- C5: a manifest whose parse fails is skipped and affects nothing else:
the scan over the project with the malformed file inserted anywhere among
the well-formed manifests returns the very same ScanResult as the scan over
the well-formed manifests alone. -/
theorem parse_failure_isolated (parse : ManifestFile → Option (List Dependency))
    (oracle : Dependency → Nat → Option (List Vulnerability))
    (bad : ManifestFile) (pre post : List ManifestFile)
    (ts : Nat) (pp : String) (dur : Nat) (hbad : parse bad = none) :
    scanPipeline parse oracle (pre ++ bad :: post) ts pp dur
      = scanPipeline parse oracle (pre ++ post) ts pp dur := by
  have hpp : parseProject parse (pre ++ bad :: post) = parseProject parse (pre ++ post) := by
    simp [parseProject, List.filterMap_append, List.filterMap_cons, hbad]
  simp [scanPipeline, hpp]

/-- C5 witness: a truncated package.json beside a valid requirements.txt
yields the same scan result as the requirements.txt alone. -/
theorem parse_failure_isolated_witness :
    exParse exFileBad = none ∧
    scanPipeline exParse (fun _ _ => none) (exFileBad :: [exFileGood]) 0 "/proj" 10
      = scanPipeline exParse (fun _ _ => none) [exFileGood] 0 "/proj" 10 :=
  ⟨by decide,
   parse_failure_isolated exParse (fun _ _ => none) exFileBad [] [exFileGood] 0 "/proj" 10
     (by decide)⟩

/-- C6: for every version core that starts with a digit, the normalizer
strips each of the range operators and the leading v tag, returning the
core unchanged: ^X.Y.Z, ~X.Y.Z, >=X.Y.Z, <=X.Y.Z, ~>X.Y.Z and vX.Y.Z all
normalize to X.Y.Z. -/
theorem normalizeVersion_strips_ops (core : String) (c : Char) (cs : List Char)
    (hdata : core.data = c :: cs) (hdigit : c.isDigit) :
    normalizeVersion ("^" ++ core) = core ∧
    normalizeVersion ("~" ++ core) = core ∧
    normalizeVersion (">=" ++ core) = core ∧
    normalizeVersion ("<=" ++ core) = core ∧
    normalizeVersion ("~>" ++ core) = core ∧
    normalizeVersion ("v" ++ core) = core := by
  have hsp : ¬ (c = ' ') := fun h => by subst h; simp [Char.isDigit] at hdigit
  have hgt : ¬ (c = '>') := fun h => by subst h; simp [Char.isDigit] at hdigit
  have h1 : ("^" : String).data = ['^'] := rfl
  have h2 : ("~" : String).data = ['~'] := rfl
  have h3 : (">=" : String).data = ['>', '='] := rfl
  have h4 : ("<=" : String).data = ['<', '='] := rfl
  have h5 : ("~>" : String).data = ['~', '>'] := rfl
  have h6 : ("v" : String).data = ['v'] := rfl
  refine ⟨?_, ?_, ?_, ?_, ?_, ?_⟩
  · apply String.ext
    show cleanVersionChars ("^" ++ core).data = core.data
    rw [String.data_append, h1, hdata]
    simp [cleanVersionChars, List.dropWhile_cons, hsp]
  · apply String.ext
    show cleanVersionChars ("~" ++ core).data = core.data
    rw [String.data_append, h2, hdata]
    simp [cleanVersionChars, List.dropWhile_cons, hsp, hgt]
  · apply String.ext
    show cleanVersionChars (">=" ++ core).data = core.data
    rw [String.data_append, h3, hdata]
    simp [cleanVersionChars, List.dropWhile_cons, hsp]
  · apply String.ext
    show cleanVersionChars ("<=" ++ core).data = core.data
    rw [String.data_append, h4, hdata]
    simp [cleanVersionChars, List.dropWhile_cons, hsp]
  · apply String.ext
    show cleanVersionChars ("~>" ++ core).data = core.data
    rw [String.data_append, h5, hdata]
    simp [cleanVersionChars, List.dropWhile_cons, hsp]
  · apply String.ext
    show cleanVersionChars ("v" ++ core).data = core.data
    rw [String.data_append, h6, hdata]
    simp [cleanVersionChars]

/-- C6 witness: the normalizer evaluated on the concrete spec examples
^1.2.3, ~1.2.3, >=1.2.3 and v1.2.3. -/
theorem normalizeVersion_strips_ops_witness :
    normalizeVersion ("^" ++ "1.2.3") = "1.2.3" ∧
    normalizeVersion ("~" ++ "1.2.3") = "1.2.3" ∧
    normalizeVersion (">=" ++ "1.2.3") = "1.2.3" ∧
    normalizeVersion ("v" ++ "1.2.3") = "1.2.3" := by
  have h := normalizeVersion_strips_ops "1.2.3" '1' ['.', '2', '.', '3']
    (by decide) (by decide)
  exact ⟨h.1, h.2.1, h.2.2.1, h.2.2.2.2.2⟩

/-- C7: two scans over the same project files with the same parsers and the
same upstream vulnerability oracle agree on every ScanResult field except
the stamped timestamp and scanDuration. -/
theorem scan_idempotent_modulo_time (parse : ManifestFile → Option (List Dependency))
    (oracle : Dependency → Nat → Option (List Vulnerability))
    (files : List ManifestFile) (pp : String)
    (ts1 dur1 ts2 dur2 : Nat) :
    (scanPipeline parse oracle files ts1 pp dur1).projectPath
      = (scanPipeline parse oracle files ts2 pp dur2).projectPath ∧
    (scanPipeline parse oracle files ts1 pp dur1).totalDependencies
      = (scanPipeline parse oracle files ts2 pp dur2).totalDependencies ∧
    (scanPipeline parse oracle files ts1 pp dur1).vulnerableDependencies
      = (scanPipeline parse oracle files ts2 pp dur2).vulnerableDependencies ∧
    (scanPipeline parse oracle files ts1 pp dur1).totalVulnerabilities
      = (scanPipeline parse oracle files ts2 pp dur2).totalVulnerabilities ∧
    (scanPipeline parse oracle files ts1 pp dur1).severityCounts
      = (scanPipeline parse oracle files ts2 pp dur2).severityCounts ∧
    (scanPipeline parse oracle files ts1 pp dur1).reports
      = (scanPipeline parse oracle files ts2 pp dur2).reports :=
  ⟨rfl, rfl, rfl, rfl, rfl, rfl⟩

/-- C10: on its success path, query returns at most limit (default 20)
results, sorted in non-increasing confidence order, and reports a
totalResults at least as large as the number of returned results. -/
theorem query_ranked_bounded_sorted (question : String) (options : QueryOptions)
    (summary : String) (formatted : List QueryResultItem) (t : Nat) :
    (QueryHandler.query question options summary formatted t).results.length
        ≤ options.limit.getD 20 ∧
    (QueryHandler.query question options summary formatted t).results.Pairwise
        (fun a b => b.confidence ≤ a.confidence) ∧
    (QueryHandler.query question options summary formatted t).results.length
        ≤ (QueryHandler.query question options summary formatted t).totalResults := by
  have hs : ((QueryHandler.applyFilters formatted options).mergeSort
      QueryHandler.confDesc).Pairwise (fun a b => QueryHandler.confDesc a b = true) := by
    apply List.sorted_mergeSort
    · intro a b c hab hbc
      simp only [QueryHandler.confDesc, decide_eq_true_eq] at *
      exact le_trans hbc hab
    · intro a b
      simp only [QueryHandler.confDesc, Bool.or_eq_true, decide_eq_true_eq]
      exact le_total b.confidence a.confidence
  have hs2 : ((QueryHandler.applyFilters formatted options).mergeSort
      QueryHandler.confDesc).Pairwise (fun a b => b.confidence ≤ a.confidence) :=
    hs.imp (fun h => by simpa [QueryHandler.confDesc] using h)
  refine ⟨?_, ?_, ?_⟩
  · show (((QueryHandler.applyFilters formatted options).mergeSort
        QueryHandler.confDesc).take (options.limit.getD 20)).length ≤ options.limit.getD 20
    simp [List.length_take]
  · exact hs2.sublist (List.take_sublist _ _)
  · show (((QueryHandler.applyFilters formatted options).mergeSort
        QueryHandler.confDesc).take (options.limit.getD 20)).length
      ≤ (QueryHandler.applyFilters formatted options).length
    calc (((QueryHandler.applyFilters formatted options).mergeSort
          QueryHandler.confDesc).take (options.limit.getD 20)).length
        ≤ ((QueryHandler.applyFilters formatted options).mergeSort
          QueryHandler.confDesc).length := (List.take_sublist _ _).length_le
      _ = (QueryHandler.applyFilters formatted options).length := List.length_mergeSort _
